import Mathlib

/-!
Shallow embedding of `src/backend/backend_worker.py` (the `BackendWorker`
runtime facade, its `Token` permit objects, the token semaphore, the event
registry and the lifecycle methods), together with theorems settling the
spec claims about it.

Modelling conventions:
* Python exceptions become values of `PyError`; a method that can raise
  returns the (possibly updated) state together with `Except PyError α`.
  A raise that happens before any mutation returns the input state unchanged.
* `threading.Semaphore` (unbounded counting semaphore) is a natural-number
  counter; a blocking `acquire` can only complete in a sequential trace when
  the counter is positive, `release` always increments.
* Real time is abstracted to natural-number "time units": the environment
  tells `start` after how many units the loop thread reports ready, and
  `Event.wait(timeout=T)` succeeds iff that number is at most `T`.
* Callbacks are Lean functions `List String → Except String Unit`; a
  `.error` result models the callback raising.
-/

namespace BackendSpec

/-- Python exception values raised by the backend module, keyed by class and
message exactly as they appear in the source. -/
inductive PyError where
  | backendError (msg : String)
  | typeError (msg : String)
deriving DecidableEq, Repr

/-- `raise BackendError("Backend not started. Call start() before scheduling tasks.")`
at `backend_worker.py:237` (the spec taxonomy's `NotStartedError`). -/
def NotStartedError : PyError :=
  .backendError "Backend not started. Call start() before scheduling tasks."

/-- `raise BackendError("Failed to start backend event loop")` at
`backend_worker.py:175` (the spec taxonomy's `StartupTimeoutError`). -/
def StartupTimeoutError : PyError :=
  .backendError "Failed to start backend event loop"

/-- `raise BackendError("ThreadPoolExecutor is not available")` at
`backend_worker.py:254`. -/
def ExecutorUnavailableError : PyError :=
  .backendError "ThreadPoolExecutor is not available"

/-- `raise TypeError("run_async expects a coroutine object")` at
`backend_worker.py:240`. -/
def RunAsyncTypeError : PyError :=
  .typeError "run_async expects a coroutine object"

/-- `raise TypeError("callback must be callable")` at `backend_worker.py:315`. -/
def OnTypeError : PyError :=
  .typeError "callback must be callable"

/-- An event callback as stored in `BackendWorker._callbacks`: it receives the
emit arguments and either returns (`.ok`) or raises (`.error msg`). -/
abbrev Callback := List String → Except String Unit

/-- Python dict assignment `d[k] = v`: replaces the binding for `k` if present,
otherwise adds it. -/
def dictInsert (d : List (String × Callback)) (k : String) (v : Callback) :
    List (String × Callback) :=
  match d with
  | [] => [(k, v)]
  | (k0, v0) :: rest =>
      if k0 = k then (k, v) :: rest else (k0, v0) :: dictInsert rest k v

/-- Python `d.get(k)`: the value bound to `k`, or `None`. -/
def dictGet (d : List (String × Callback)) (k : String) : Option Callback :=
  match d with
  | [] => none
  | (k0, v0) :: rest => if k0 = k then some v0 else dictGet rest k

/-- One completed call on the token semaphore: a successful blocking
`acquire` (via `acquire_token`, `Token.__enter__` or `Token.__aenter__`)
or a `release` (via `release_token` or a first `Token.release`). -/
inductive GateOp where
  | acquire
  | release
deriving DecidableEq, Repr

/-- Effect of one gate operation on the `threading.Semaphore` counter
(`backend_worker.py:132`): `acquire` can only complete when the counter is
positive and decrements it; `release` always increments (the primitive is an
unbounded `Semaphore`, not a `BoundedSemaphore`). -/
def gateStep (v : Nat) : GateOp → Option Nat
  | .acquire => if v = 0 then none else some (v - 1)
  | .release => some (v + 1)

/-- Run a sequence of completed gate operations from counter value `v`;
`none` when some `acquire` in the sequence could not have completed there. -/
def gateRun (v : Nat) : List GateOp → Option Nat
  | [] => some v
  | op :: ops =>
      match gateStep v op with
      | none => none
      | some v1 => gateRun v1 ops

/-- Contribution of one gate operation to the outstanding-permit count. -/
def opDelta : GateOp → Int
  | .acquire => 1
  | .release => -1

/-- Outstanding-permit count of a call sequence: completed acquisitions minus
releases. -/
def outstanding (ops : List GateOp) : Int :=
  (ops.map opDelta).sum

/-- Argument passed to `run_async`: either a coroutine object (identified by a
task id) or any non-coroutine value, as discriminated by
`inspect.iscoroutine` at `backend_worker.py:239`. -/
inductive RunArg where
  | coro (id : Nat)
  | notCoro
deriving DecidableEq, Repr

/-- Argument passed to `on`: either a callable or not, as discriminated by
`callable(callback)` at `backend_worker.py:314`. -/
inductive CbArg where
  | callableCb (f : Callback)
  | notCallable

/-- State of a `BackendWorker` instance (`BackendWorker.__init__`,
`backend_worker.py:117-140`).  `loopTasks` is the run queue of the backend
event loop (coroutines handed over by `asyncio.run_coroutine_threadsafe`);
`poolTasks` are the callables submitted to the `ThreadPoolExecutor`. -/
structure BackendWorker where
  loop : Option Unit
  loopThread : Option Unit
  executor : Option Nat
  started : Bool
  shutdownEvent : Bool
  maxWorkers : Nat
  maxTokens : Nat
  tokenSemaphore : Nat
  callbacks : List (String × Callback)
  loopTasks : List Nat
  poolTasks : List Nat

/-- `BackendWorker.__init__(max_workers=4, max_tokens=2)`:
no loop/thread/executor yet, events cleared, semaphore initialised to
`max_tokens`, empty callback registry. -/
def BackendWorker.init (maxWorkers : Nat := 4) (maxTokens : Nat := 2) :
    BackendWorker :=
  { loop := none
    loopThread := none
    executor := none
    started := false
    shutdownEvent := false
    maxWorkers := maxWorkers
    maxTokens := maxTokens
    tokenSemaphore := maxTokens
    callbacks := []
    loopTasks := []
    poolTasks := [] }

/-- A `Token` permit object (`backend_worker.py:58-93`): records whether it
has already been released. -/
structure Token where
  released : Bool
deriving DecidableEq, Repr

/-- `Token.__init__`: `_released = False`. -/
def Token.new : Token := { released := false }

/-- `Token.release` (`backend_worker.py:69-73`): if not yet released,
increment the backend's token semaphore and mark released; otherwise do
nothing.  Total: never raises. -/
def Token.release (t : Token) (s : BackendWorker) : Token × BackendWorker :=
  if t.released then (t, s)
  else ({ released := true },
        { s with tokenSemaphore := s.tokenSemaphore + 1 })

/-- `Token.__enter__` / `Token.__aenter__`: a blocking semaphore acquire;
in a sequential trace it completes only when the counter is positive. -/
def Token.enter (t : Token) (s : BackendWorker) :
    Option (Token × BackendWorker) :=
  if s.tokenSemaphore = 0 then none
  else some (t, { s with tokenSemaphore := s.tokenSemaphore - 1 })

/-- `BackendWorker.acquire_token(timeout)` (`backend_worker.py:277-282`):
blocking acquire, returning `True` on success; with a timeout it can return
`False` instead of blocking forever on an exhausted gate. -/
def BackendWorker.acquire_token (s : BackendWorker) (hasTimeout : Bool) :
    Option (BackendWorker × Bool) :=
  if s.tokenSemaphore = 0 then
    if hasTimeout then some (s, false) else none
  else some ({ s with tokenSemaphore := s.tokenSemaphore - 1 }, true)

/-- `BackendWorker.release_token` (`backend_worker.py:284-285`): an
unconditional `Semaphore.release()`; there is no check that a permit is
actually outstanding. -/
def BackendWorker.release_token (s : BackendWorker) : BackendWorker :=
  { s with tokenSemaphore := s.tokenSemaphore + 1 }

/-- The `timeout=5.0` passed to `self._started.wait` at
`backend_worker.py:173`, in time units. -/
def startupWaitTimeout : Nat := 5

/-- `BackendWorker.start` (`backend_worker.py:143-179`).
`loopReadyAfter` is the environment: after how many time units the spawned
loop thread reaches `self._started.set()`.  Already started: immediate no-op
return.  Otherwise: create the executor, spawn the loop thread, and block on
`self._started.wait(timeout=5.0)` — so the starting thread is blocked for at
most `min loopReadyAfter startupWaitTimeout` units.  If the loop is not ready
within the window, raise `StartupTimeoutError` (executor and thread already
created, `_shutdown` not cleared); on success record loop and thread, clear
`_shutdown`. -/
def BackendWorker.start (s : BackendWorker) (loopReadyAfter : Nat) :
    BackendWorker × Except PyError Unit :=
  if s.started then (s, .ok ())
  else
    let s1 := { s with executor := some s.maxWorkers, loopThread := some () }
    if loopReadyAfter ≤ startupWaitTimeout then
      ({ s1 with loop := some (), started := true, shutdownEvent := false },
       .ok ())
    else (s1, .error StartupTimeoutError)

/-- `BackendWorker.is_running` (`backend_worker.py:181-182`). -/
def BackendWorker.is_running (s : BackendWorker) : Bool :=
  s.started && !s.shutdownEvent

/-- `BackendWorker.shutdown(wait)` (`backend_worker.py:184-212`) together
with `_async_shutdown` (`backend_worker.py:214-228`): if not started or no
loop, return immediately with nothing changed.  Otherwise cancel and drain
all loop tasks (or force-stop on grace timeout — either path sets
`_shutdown`), shut the executor down (`wait` only controls whether the
calling thread blocks for in-flight callables), join and drop the loop
thread, drop the loop and clear `_started`. -/
def BackendWorker.shutdown (s : BackendWorker) (wait : Bool := true) :
    BackendWorker :=
  if s.started = false ∨ s.loop = none then s
  else
    { s with
      loopTasks := []
      shutdownEvent := true
      executor := none
      loopThread := none
      loop := none
      started := false }

/-- `BackendWorker.run_async(coro)` (`backend_worker.py:231-243`): raise
`NotStartedError` when not started (or no loop) — before anything is
scheduled; raise `TypeError` when the argument is not a coroutine; otherwise
hand the coroutine to the loop and return its future. -/
def BackendWorker.run_async (s : BackendWorker) (arg : RunArg) :
    BackendWorker × Except PyError Nat :=
  if s.started = false ∨ s.loop = none then (s, .error NotStartedError)
  else
    match arg with
    | .notCoro => (s, .error RunAsyncTypeError)
    | .coro id => ({ s with loopTasks := s.loopTasks ++ [id] }, .ok id)

/-- `BackendWorker.submit_blocking(fn, ...)` (`backend_worker.py:245-257`):
if not started, call `start()` first (propagating its failure); then require
the executor and submit `fn` to it, returning the future. -/
def BackendWorker.submit_blocking (s : BackendWorker) (loopReadyAfter : Nat)
    (fn : Nat) : BackendWorker × Except PyError Nat :=
  let started := if s.started then (s, Except.ok ())
                 else s.start loopReadyAfter
  match started with
  | (s1, .error e) => (s1, .error e)
  | (s1, .ok _) =>
      match s1.executor with
      | none => (s1, .error ExecutorUnavailableError)
      | some _ => ({ s1 with poolTasks := s1.poolTasks ++ [fn] }, .ok fn)

/-- `BackendWorker.on(name, callback)` (`backend_worker.py:309-316`): raise
`TypeError` for a non-callable (registry untouched), otherwise register,
replacing any prior callback of that name. -/
def BackendWorker.on (s : BackendWorker) (name : String) (cb : CbArg) :
    BackendWorker × Except PyError Unit :=
  match cb with
  | .notCallable => (s, .error OnTypeError)
  | .callableCb f =>
      ({ s with callbacks := dictInsert s.callbacks name f }, .ok ())

/-- `BackendWorker.emit(name, *args, **kwargs)` (`backend_worker.py:318-329`):
look the callback up; if absent, do nothing; if present, invoke it on the
emitting thread inside `try/except`, so its error is logged and swallowed.
The return type carries no `PyError`: `emit` itself never raises, and the
state is returned untouched.  `none` = no callback registered; `some r` =
the callback was invoked and produced `r` (`.error` = it raised). -/
def BackendWorker.emit (s : BackendWorker) (name : String)
    (args : List String) : BackendWorker × Option (Except String Unit) :=
  match dictGet s.callbacks name with
  | none => (s, none)
  | some cb => (s, some (cb args))

/-- Example callback that raises on every invocation (for concrete
instantiations of the event-registry theorems). -/
def exampleRaisingCb : Callback := fun _ => .error "boom"

/-- Example callback that returns normally on every invocation. -/
def exampleOkCb : Callback := fun _ => .ok ()

/-- Example backend state with two registered callbacks: `"a"` raises,
`"b"` succeeds. -/
def exampleTwoCbState : BackendWorker :=
  { BackendWorker.init 4 2 with
    callbacks := [("a", exampleRaisingCb), ("b", exampleOkCb)] }

/-- Running gate operations over a concatenation composes. -/
theorem gateRun_append (v : Nat) (xs ys : List GateOp) :
    gateRun v (xs ++ ys) =
      match gateRun v xs with
      | none => none
      | some v1 => gateRun v1 ys := by
  induction xs generalizing v with
  | nil => rfl
  | cons op rest ih =>
      simp only [List.cons_append, gateRun]
      cases gateStep v op with
      | none => rfl
      | some v1 => exact ih v1

/-- The semaphore counter after a completed trace is the initial value minus
the outstanding-permit count of the trace. -/
theorem gateRun_value (v : Nat) (ops : List GateOp) (w : Nat)
    (h : gateRun v ops = some w) :
    (w : Int) = (v : Int) - outstanding ops := by
  induction ops generalizing v with
  | nil =>
      simp only [gateRun, Option.some.injEq] at h
      simp [outstanding, ← h]
  | cons op rest ih =>
      cases op with
      | acquire =>
          simp only [gateRun, gateStep] at h
          by_cases hv : v = 0
          · simp [hv] at h
          · simp only [hv, if_false] at h
            have hrec := ih (v - 1) h
            simp only [outstanding, List.map_cons, List.sum_cons,
              opDelta] at hrec ⊢
            omega
      | release =>
          simp only [gateRun, gateStep] at h
          have hrec := ih (v + 1) h
          simp only [outstanding, List.map_cons, List.sum_cons,
            opDelta] at hrec ⊢
          omega

/-- A prefix of a completed trace is itself a completed trace. -/
theorem gateRun_take_isSome (v : Nat) (ops : List GateOp) (i : Nat)
    (h : (gateRun v ops).isSome = true) :
    (gateRun v (ops.take i)).isSome = true := by
  rw [← List.take_append_drop i ops, gateRun_append] at h
  cases he : gateRun v (ops.take i) with
  | none => rw [he] at h; simp at h
  | some w => simp

/-- Claim C1 (amended): for a configured capacity `n ≥ 1`, over any sequence
of completed gate operations in which every release matches a previously
acquired, still-outstanding permit (releases never outnumber acquires in any
prefix), the outstanding-permit count stays between `0` and `n` at every
point. -/
theorem gate_outstanding_bounded (n : Nat) (ops : List GateOp)
    (hn : 1 ≤ n)
    (hrun : (gateRun n ops).isSome = true)
    (hwf : ∀ i, i ≤ ops.length → 0 ≤ outstanding (ops.take i)) :
    ∀ i, 0 ≤ outstanding (ops.take i) ∧
         outstanding (ops.take i) ≤ (n : Int) := by
  intro i
  by_cases hi : i ≤ ops.length
  case neg =>
    have hlen : ops.take i = ops.take ops.length := by
      rw [List.take_of_length_le (le_of_not_le hi), List.take_length]
    rw [hlen]
    have hsome := gateRun_take_isSome n ops ops.length hrun
    obtain ⟨w, hw⟩ := Option.isSome_iff_exists.mp hsome
    have hval := gateRun_value n (ops.take ops.length) w hw
    refine ⟨hwf ops.length le_rfl, ?_⟩
    omega
  case pos =>
    have hsome := gateRun_take_isSome n ops i hrun
    obtain ⟨w, hw⟩ := Option.isSome_iff_exists.mp hsome
    have hval := gateRun_value n (ops.take i) w hw
    refine ⟨hwf i hi, ?_⟩
    omega

/-- Witness for Claim C1 (amended) at capacity 2 and the concrete trace
acquire, acquire, release, acquire, inspected after two operations. -/
theorem gate_outstanding_bounded_witness :
    0 ≤ outstanding ([GateOp.acquire, GateOp.acquire, GateOp.release,
        GateOp.acquire].take 2) ∧
    outstanding ([GateOp.acquire, GateOp.acquire, GateOp.release,
        GateOp.acquire].take 2) ≤ (2 : Int) :=
  gate_outstanding_bounded 2
    [GateOp.acquire, GateOp.acquire, GateOp.release, GateOp.acquire]
    (by decide) (by decide) (by decide) 2

/-- Claim C1 as stated is false on the code: `release_token` increments the
unbounded semaphore unconditionally, so the trace consisting of one bare
`release_token()` call is accepted by the gate at capacity 1 yet drives the
outstanding-permit count to -1. -/
theorem gate_outstanding_counterexample :
    ¬ (∀ (n : Nat), 1 ≤ n → ∀ (ops : List GateOp),
        (gateRun n ops).isSome = true →
        ∀ i, 0 ≤ outstanding (ops.take i) ∧
             outstanding (ops.take i) ≤ (n : Int)) := by
  intro h
  have h1 := (h 1 (by decide) [GateOp.release] (by decide) 1).1
  revert h1
  decide

/-- Claim C2: a first `Token.release` increments the semaphore exactly once
and marks the token released; `release` on an already-released token is a
no-op on both the token and the semaphore; hence releasing twice equals
releasing once, and `release` (a total function here) never raises. -/
theorem token_release_exactly_once (s : BackendWorker) (t : Token) :
    (t.released = false →
      Token.release t s =
        ({ released := true },
         { s with tokenSemaphore := s.tokenSemaphore + 1 })) ∧
    (t.released = true → Token.release t s = (t, s)) ∧
    Token.release (Token.release t s).1 (Token.release t s).2 =
      Token.release t s := by
  cases t with
  | mk r => cases r <;> simp [Token.release]

/-- Witness for Claim C2: releasing a fresh token on a fresh backend
increments the semaphore from 2 to 3 exactly once. -/
theorem token_release_exactly_once_witness :
    Token.release Token.new (BackendWorker.init 4 2) =
      ({ released := true },
       { BackendWorker.init 4 2 with tokenSemaphore := 3 }) :=
  (token_release_exactly_once (BackendWorker.init 4 2) Token.new).1 rfl

/-- Claim C3: `run_async` on a backend that has not been started raises
`NotStartedError` and leaves the state (in particular the loop's task queue)
unchanged: nothing is scheduled. -/
theorem run_async_not_started (s : BackendWorker) (arg : RunArg)
    (h : s.started = false) :
    s.run_async arg = (s, .error NotStartedError) := by
  simp [BackendWorker.run_async, h]

/-- Witness for Claim C3 on a freshly constructed backend. -/
theorem run_async_not_started_witness :
    (BackendWorker.init 4 2).run_async (RunArg.coro 7) =
      (BackendWorker.init 4 2, .error NotStartedError) :=
  run_async_not_started (BackendWorker.init 4 2) (RunArg.coro 7) rfl

/-- Claim C4: `submit_blocking` on a backend that has not been started (in an
environment where the loop thread comes up within the startup window)
implicitly starts the runtime and succeeds: it returns the handle for the
callable, the backend ends up started, and the callable is submitted to the
pool; no "not started" error is raised. -/
theorem submit_blocking_autostarts (s : BackendWorker) (r fn : Nat)
    (hns : s.started = false) (hready : r ≤ startupWaitTimeout) :
    (s.submit_blocking r fn).2 = .ok fn ∧
    (s.submit_blocking r fn).1.started = true ∧
    (s.submit_blocking r fn).1.poolTasks = s.poolTasks ++ [fn] := by
  simp [BackendWorker.submit_blocking, BackendWorker.start, hns, hready]

/-- Witness for Claim C4 on a freshly constructed backend with the loop
ready immediately. -/
theorem submit_blocking_autostarts_witness :
    ((BackendWorker.init 4 2).submit_blocking 0 42).2 = .ok 42 ∧
    ((BackendWorker.init 4 2).submit_blocking 0 42).1.started = true ∧
    ((BackendWorker.init 4 2).submit_blocking 0 42).1.poolTasks = [] ++ [42] :=
  submit_blocking_autostarts (BackendWorker.init 4 2) 0 42 rfl (by decide)

/-- Claim C5: `start` on an already-started backend is a no-op returning
normally, leaving the whole state — in particular the single loop thread and
the single executor — unchanged, and `is_running` stays true. -/
theorem start_idempotent (s : BackendWorker) (r : Nat)
    (h : s.started = true) :
    s.start r = (s, .ok ()) ∧
    (s.is_running = true → (s.start r).1.is_running = true) := by
  refine ⟨by simp [BackendWorker.start, h], fun hr => ?_⟩
  simp [BackendWorker.start, h, hr]

/-- Witness for Claim C5: starting a second time after a successful start
changes nothing. -/
theorem start_idempotent_witness :
    ((BackendWorker.init 4 2).start 0).1.start 3 =
      (((BackendWorker.init 4 2).start 0).1, .ok ()) :=
  (start_idempotent ((BackendWorker.init 4 2).start 0).1 3 rfl).1

/-- Claim C6: `shutdown` is idempotent — a second `shutdown` after any first
`shutdown` (completed or no-op) returns the state unchanged, for any wait
flags.  `shutdown` is a total function here, so the second call also
"returns without raising". -/
theorem shutdown_idempotent (s : BackendWorker) (w1 w2 : Bool) :
    (s.shutdown w1).shutdown w2 = s.shutdown w1 := by
  by_cases h : s.started = false ∨ s.loop = none
  · simp [BackendWorker.shutdown, h]
  · simp [BackendWorker.shutdown, h]

/-- Claim C7: with a callback registered for `n2`, emitting `n1` whose
callback raises returns normally with the error swallowed (captured, state
unchanged), and the immediately following emit of `n2` still invokes the
callback registered for `n2`. -/
theorem emit_swallows_and_isolates (s : BackendWorker)
    (n1 n2 : String) (a1 a2 : List String) (cb1 cb2 : Callback)
    (msg : String)
    (h1 : dictGet s.callbacks n1 = some cb1)
    (h2 : dictGet s.callbacks n2 = some cb2)
    (hraise : cb1 a1 = .error msg) :
    s.emit n1 a1 = (s, some (.error msg)) ∧
    (s.emit n1 a1).1.emit n2 a2 = (s, some (cb2 a2)) := by
  refine ⟨?_, ?_⟩
  · simp [BackendWorker.emit, h1, hraise]
  · simp [BackendWorker.emit, h1, h2, hraise]

/-- Witness for Claim C7 with two concrete callbacks, the first raising. -/
theorem emit_swallows_and_isolates_witness :
    exampleTwoCbState.emit "a" [] =
      (exampleTwoCbState, some (.error "boom")) ∧
    (exampleTwoCbState.emit "a" []).1.emit "b" ["x"] =
      (exampleTwoCbState, some (Except.ok ())) :=
  emit_swallows_and_isolates exampleTwoCbState "a" "b" [] ["x"]
    exampleRaisingCb exampleOkCb "boom" rfl rfl rfl

/-- Claim C8: when the backend is not yet started and the loop thread does
not report ready within the startup window, `start` raises
`StartupTimeoutError`; the window is 5 time units (the code's
`wait(timeout=5.0)`), and the error is distinct from `NotStartedError`. -/
theorem start_timeout_distinct_error (s : BackendWorker) (r : Nat)
    (hns : s.started = false) (hlate : startupWaitTimeout < r) :
    (s.start r).2 = .error StartupTimeoutError ∧
    startupWaitTimeout = 5 ∧
    StartupTimeoutError ≠ NotStartedError := by
  refine ⟨?_, rfl, by decide⟩
  simp [BackendWorker.start, hns, Nat.not_le.mpr hlate]

/-- Witness for Claim C8: a fresh backend whose loop would only become ready
after 6 units fails with the startup-timeout error. -/
theorem start_timeout_distinct_error_witness :
    ((BackendWorker.init 4 2).start 6).2 = .error StartupTimeoutError ∧
    startupWaitTimeout = 5 ∧
    StartupTimeoutError ≠ NotStartedError :=
  start_timeout_distinct_error (BackendWorker.init 4 2) 6 rfl (by decide)

/-- Claim C9: emitting an event name with no registered callback is a silent
no-op: `emit` returns normally, invokes nothing, and the state (registry
included) is unchanged. -/
theorem emit_no_callback_noop (s : BackendWorker) (n : String)
    (a : List String) (h : dictGet s.callbacks n = none) :
    s.emit n a = (s, none) := by
  simp [BackendWorker.emit, h]

/-- Witness for Claim C9 on the empty registry of a fresh backend. -/
theorem emit_no_callback_noop_witness :
    (BackendWorker.init 4 2).emit "nobody" ["p"] =
      (BackendWorker.init 4 2, none) :=
  emit_no_callback_noop (BackendWorker.init 4 2) "nobody" ["p"] rfl

/-- Claim C10: on a started runtime (loop present), `run_async` with a
non-coroutine argument raises `TypeError` with the state — hence the loop's
task queue — unchanged; and `on` with a non-callable raises `TypeError` with
the state — hence the registry — unchanged. -/
theorem type_guards :
    (∀ (s : BackendWorker), s.started = true → s.loop.isSome = true →
        s.run_async RunArg.notCoro = (s, .error RunAsyncTypeError)) ∧
    (∀ (s : BackendWorker) (name : String),
        s.on name CbArg.notCallable = (s, .error OnTypeError)) := by
  refine ⟨fun s hs hl => ?_, fun s name => rfl⟩
  have hloop : s.loop ≠ none := by
    cases hcase : s.loop with
    | none => rw [hcase] at hl; simp at hl
    | some u => simp
  simp [BackendWorker.run_async, hs, hloop]

/-- Witness for Claim C10: a started backend rejects a non-coroutine, and a
fresh backend rejects a non-callable callback registration. -/
theorem type_guards_witness :
    ((BackendWorker.init 4 2).start 0).1.run_async RunArg.notCoro =
      (((BackendWorker.init 4 2).start 0).1, .error RunAsyncTypeError) ∧
    (BackendWorker.init 4 2).on "e" CbArg.notCallable =
      (BackendWorker.init 4 2, .error OnTypeError) :=
  ⟨type_guards.1 ((BackendWorker.init 4 2).start 0).1 rfl rfl,
   type_guards.2 (BackendWorker.init 4 2) "e"⟩

end BackendSpec
